import Mathlib

/-!
Shallow embedding of the connection/capability resolution and multi-product
dispatch layer of the influxdb3 MCP server (TypeScript sources under
`src/services/`).  Machine integers of the source are JavaScript numbers
used only at integral values, embedded as `Int`; optional string fields of
the configuration are `Option String`, and JavaScript truthiness of such a
field (`!!x`: absent or empty means false) is the `truthy` predicate below.
Fallible operations are embedded as `Except String`.
-/

namespace InfluxMcp

/-- The closed enumeration of backend product types
(`helpers/enums/influx-product-types.enum`). -/
inductive InfluxProductType where
  | Core
  | Enterprise
  | CloudDedicated
  | Clustered
  | CloudServerless
deriving DecidableEq, Repr

/-- The raw connection settings (`config.influx`): product type plus the
optional credential fields.  `none` stands for an undefined field. -/
structure InfluxConfig where
  type : InfluxProductType
  url : Option String := none
  token : Option String := none
  management_token : Option String := none
  cluster_id : Option String := none
  account_id : Option String := none
deriving DecidableEq, Repr

/-- JavaScript truthiness of an optional string field: `undefined` and the
empty string are falsy, every other string is truthy. -/
def truthy : Option String → Bool
  | none => false
  | some s => !s.isEmpty

/-- `BaseConnectionService.getDataHost`: the host for query/write (data
plane) operations. -/
def getDataHost (c : InfluxConfig) : Option String :=
  if c.type = .CloudDedicated ∧ truthy c.cluster_id then
    some ("https://" ++ c.cluster_id.getD "" ++ ".a.influxdb.io")
  else if c.type = .CloudServerless then
    c.url
  else
    c.url

/-- `BaseConnectionService.getManagementHost`: the host for management
(control plane) operations. -/
def getManagementHost (c : InfluxConfig) : Option String :=
  if c.type = .CloudDedicated then
    some "https://console.influxdata.com"
  else if c.type = .CloudServerless then
    c.url
  else
    c.url

/-- `BaseConnectionService.isValidConfig`: whether the configuration is
valid for data operations. -/
def isValidConfig (config : InfluxConfig) : Bool :=
  if config.type = .CloudDedicated then
    truthy config.cluster_id && truthy config.token
  else if config.type = .CloudServerless then
    truthy config.url && truthy config.token
  else
    truthy config.url && truthy config.token

/-- `BaseConnectionService.hasDataCapabilities`. -/
def hasDataCapabilities (c : InfluxConfig) : Bool :=
  isValidConfig c

/-- `BaseConnectionService.hasManagementCapabilities`. -/
def hasManagementCapabilities (config : InfluxConfig) : Bool :=
  if config.type = .CloudDedicated then
    truthy config.cluster_id && truthy config.account_id &&
      truthy config.management_token
  else if config.type = .Clustered then
    truthy config.management_token
  else if config.type = .CloudServerless then
    truthy config.url && truthy config.token
  else
    truthy config.url && truthy config.token

/-- `BaseConnectionService.validateManagementCapabilities`: raising is
embedded as `Except.error` carrying the thrown message. -/
def validateManagementCapabilities (config : InfluxConfig) :
    Except String Unit :=
  if hasManagementCapabilities config then
    .ok ()
  else if config.type = .CloudDedicated ∨ config.type = .Clustered then
    let missing : List String :=
      (if !truthy config.cluster_id then ["cluster_id"] else []) ++
      (if !truthy config.account_id then ["account_id"] else []) ++
      (if !truthy config.management_token then ["management_token"] else [])
    .error ("Cloud Dedicated/Clustered management operations require: " ++
      String.intercalate ", " missing)
  else if config.type = .CloudServerless then
    if !truthy config.url then
      .error "Cloud Serverless management operations require url (region-specific endpoint) in configuration"
    else if !truthy config.token then
      .error "Cloud Serverless management operations require database token in configuration"
    else
      .ok ()
  else
    if !truthy config.url then
      .error "Core/Enterprise management operations require url in configuration"
    else if !truthy config.token then
      .error "Core/Enterprise management operations require token with management permissions"
    else
      .ok ()

/-- The display name `validateOperationSupport` uses for each product type
(both for the current type and for the supported list). -/
def productTypeName : InfluxProductType → String
  | .Core => "Core"
  | .Enterprise => "Enterprise"
  | .CloudDedicated => "Cloud Dedicated"
  | .CloudServerless => "Cloud Serverless"
  | .Clustered => "Clustered"

/-- `BaseConnectionService.validateOperationSupport`: an allow-list check on
the current product type; raising is `Except.error` with the thrown
message. -/
def validateOperationSupport (operation : String)
    (supportedTypes : List InfluxProductType)
    (currentType : InfluxProductType) : Except String Unit :=
  if supportedTypes.contains currentType then
    .ok ()
  else
    .error ("Operation '" ++ operation ++ "' is not supported for " ++
      productTypeName currentType ++ ". Supported types: " ++
      String.intercalate ", " (supportedTypes.map productTypeName))

/-- The canonical database shape (`DatabaseInfo` of
`database-management.service`), together with the passthrough metadata the
CloudServerless normalizer attaches dynamically (bucket id, organization id,
storage type, timestamps, description, retention policy). -/
structure DatabaseInfo where
  name : String
  maxTables : Option Int := none
  maxColumnsPerTable : Option Int := none
  retentionPeriod : Option Int := none
  bucketId : Option String := none
  organizationId : Option String := none
  storageType : Option String := none
  createdAt : Option String := none
  updatedAt : Option String := none
  description : Option String := none
  retentionPolicy : Option String := none
deriving DecidableEq, Repr

/-- One entry of a bucket's `retentionRules` array in the `/api/v2` API. -/
structure RetentionRule where
  type : String
  everySeconds : Int
deriving DecidableEq, Repr

/-- A bucket object of a `/api/v2/buckets` response, with the fields the
service reads.  An absent `name` is the empty string (JavaScript truthiness
of `bucket.name`); an absent `retentionRules` is the empty list. -/
structure Bucket where
  name : String := ""
  type : Option String := none
  retentionRules : List RetentionRule := []
  id : Option String := none
  orgID : Option String := none
  storageType : Option String := none
  createdAt : Option String := none
  updatedAt : Option String := none
  description : Option String := none
  rp : Option String := none
deriving DecidableEq, Repr

/-- The per-bucket mapping of `listDatabasesCloudServerless`: a bucket object
with a truthy `name` becomes a canonical database (retention converted from
seconds to nanoseconds when `retentionRules[0].everySeconds` is truthy,
i.e. nonzero; truthy passthrough fields copied); otherwise the item is
stringified, which for an object yields "[object Object]". -/
def mapServerlessBucket (bucket : Bucket) : DatabaseInfo :=
  if bucket.name ≠ "" then
    { name := bucket.name
      retentionPeriod :=
        match bucket.retentionRules.head? with
        | some r => if r.everySeconds ≠ 0 then some (r.everySeconds * 1000000000) else none
        | none => none
      bucketId := if truthy bucket.id then bucket.id else none
      organizationId := if truthy bucket.orgID then bucket.orgID else none
      storageType := if truthy bucket.storageType then bucket.storageType else none
      createdAt := if truthy bucket.createdAt then bucket.createdAt else none
      updatedAt := if truthy bucket.updatedAt then bucket.updatedAt else none
      description := if truthy bucket.description then bucket.description else none
      retentionPolicy := if truthy bucket.rp then bucket.rp else none }
  else
    { name := "[object Object]" }

/-- `listDatabasesCloudServerless`, after the response envelope has been
reduced to its bucket array: drop every bucket whose `type` is "system",
then map the rest to the canonical shape. -/
def listDatabasesCloudServerless (buckets : List Bucket) : List DatabaseInfo :=
  (buckets.filter (fun bucket => bucket.type ≠ some "system")).map
    mapServerlessBucket

/-- The caller-supplied creation/update options for a CloudDedicated
database (`CloudDedicatedDatabaseConfig`); every field optional. -/
structure CloudDedicatedDatabaseConfig where
  maxTables : Option Int := none
  maxColumnsPerTable : Option Int := none
  retentionPeriod : Option Int := none
deriving DecidableEq, Repr

/-- The outgoing payload of `createDatabaseCloudDedicated`: all four fields
are always sent. -/
structure CloudDedicatedCreatePayload where
  name : String
  maxTables : Int
  maxColumnsPerTable : Int
  retentionPeriod : Int
deriving DecidableEq, Repr

/-- The payload construction of `createDatabaseCloudDedicated`: each numeric
field takes the caller's value when it is defined (not `undefined`), and the
default 500 / 200 / 0 otherwise. -/
def createDatabaseCloudDedicatedPayload (name : String)
    (config : Option CloudDedicatedDatabaseConfig) :
    CloudDedicatedCreatePayload :=
  { name := name
    maxTables :=
      match config.bind (fun c => c.maxTables) with
      | some v => v
      | none => 500
    maxColumnsPerTable :=
      match config.bind (fun c => c.maxColumnsPerTable) with
      | some v => v
      | none => 200
    retentionPeriod :=
      match config.bind (fun c => c.retentionPeriod) with
      | some v => v
      | none => 0 }

/-- The caller-supplied creation/update options for a CloudServerless bucket
(`CloudServerlessBucketConfig`); retention is in nanoseconds. -/
structure CloudServerlessBucketConfig where
  name : Option String := none
  description : Option String := none
  retentionPeriod : Option Int := none
deriving DecidableEq, Repr

/-- The outgoing payload of `createDatabaseCloudServerless` (a
`POST /api/v2/buckets` body). -/
structure ServerlessCreatePayload where
  name : String
  orgID : String
  retentionRules : List RetentionRule
  description : Option String := none
deriving DecidableEq, Repr

/-- The payload construction of `createDatabaseCloudServerless`, after the
organization id has been resolved: `everySeconds` is the caller's nanosecond
retention floor-divided by 1e9 when that retention is truthy (defined and
nonzero), and the 30-day default 2592000 otherwise; a truthy description is
copied. -/
def createDatabaseCloudServerlessPayload (name : String) (orgID : String)
    (config : Option CloudServerlessBucketConfig) : ServerlessCreatePayload :=
  { name := name
    orgID := orgID
    retentionRules :=
      [{ type := "expire"
         everySeconds :=
           match config.bind (fun c => c.retentionPeriod) with
           | some v => if v ≠ 0 then Int.fdiv v 1000000000 else 2592000
           | none => 2592000 }]
    description :=
      match config.bind (fun c => c.description) with
      | some d => if d ≠ "" then some d else none
      | none => none }

/-- Substring containment, the embedding of JavaScript
`String.prototype.includes`. -/
def strContains (s pat : String) : Bool :=
  (List.range (s.length + 1)).any fun i => pat.toList.isPrefixOf (s.toList.drop i)

namespace HttpClientService

/-- The outcome of the underlying axios request: a parsed response body, or
a thrown error carrying its message. -/
inductive RequestOutcome where
  | success (data : String)
  | failure (message : String)
deriving DecidableEq, Repr

/-- `HttpClientService.delete`: a thrown error whose message contains
"aborted" is swallowed and an empty object (here `none`) is returned as a
successful result; every other error is rethrown unchanged, and a
successful response's body (`some data`) is returned. -/
def delete : RequestOutcome → Except String (Option String)
  | .success d => .ok (some d)
  | .failure msg => if strContains msg "aborted" then .ok none else .error msg

end HttpClientService

/-- The product-specific strategy a database operation dispatches to in
`DatabaseManagementService`. -/
inductive DatabaseRoute where
  | cloudDedicated
  | cloudServerless
  | coreEnterprise
  | unsupportedCoreEnterprise
deriving DecidableEq, Repr

/-- The dispatch switch of `listDatabases`. -/
def listDatabasesRoute : InfluxProductType → DatabaseRoute
  | .CloudDedicated => .cloudDedicated
  | .Clustered => .cloudDedicated
  | .CloudServerless => .cloudServerless
  | .Core => .coreEnterprise
  | .Enterprise => .coreEnterprise

/-- The dispatch switch of `createDatabase`. -/
def createDatabaseRoute : InfluxProductType → DatabaseRoute
  | .CloudDedicated => .cloudDedicated
  | .Clustered => .cloudDedicated
  | .CloudServerless => .cloudServerless
  | .Core => .coreEnterprise
  | .Enterprise => .coreEnterprise

/-- The dispatch switch of `updateDatabase` (Core/Enterprise throw "not
supported"). -/
def updateDatabaseRoute : InfluxProductType → DatabaseRoute
  | .CloudDedicated => .cloudDedicated
  | .Clustered => .cloudDedicated
  | .CloudServerless => .cloudServerless
  | .Core => .unsupportedCoreEnterprise
  | .Enterprise => .unsupportedCoreEnterprise

/-- The dispatch switch of `deleteDatabase`. -/
def deleteDatabaseRoute : InfluxProductType → DatabaseRoute
  | .CloudDedicated => .cloudDedicated
  | .Clustered => .cloudDedicated
  | .CloudServerless => .cloudServerless
  | .Core => .coreEnterprise
  | .Enterprise => .coreEnterprise

/-- The string interpolation of an optional field in a TypeScript template
literal: an undefined field renders as "undefined". -/
def interpolate (o : Option String) : String :=
  o.getD "undefined"

/-- The account/cluster databases endpoint shared by the CloudDedicated and
Clustered strategies (`listDatabasesCloudDedicated`,
`createDatabaseCloudDedicated`). -/
def cloudDedicatedDatabasesEndpoint (c : InfluxConfig) : String :=
  "/api/v0/accounts/" ++ interpolate c.account_id ++ "/clusters/" ++
    interpolate c.cluster_id ++ "/databases"

/-- The token selection of `getInfluxHttpClient`: for management calls under
CloudDedicated or Clustered the management token is used, otherwise the
ordinary token (absent tokens become the empty string). -/
def getInfluxHttpClientToken (forManagement : Bool) (c : InfluxConfig) :
    String :=
  if forManagement ∧ (c.type = .CloudDedicated ∨ c.type = .Clustered) then
    c.management_token.getD ""
  else
    c.token.getD ""

/-- C1: the claim says that under the Clustered product type,
`hasManagementCapabilities` is true iff `cluster_id`, `account_id` and
`management_token` are all present.  The code checks only
`management_token` for Clustered, so a Clustered configuration carrying
only a management token passes both `hasManagementCapabilities` and
`validateManagementCapabilities` although its `cluster_id` and
`account_id` are absent — the fields the Clustered endpoints and the
validator's own error message require. -/
theorem clustered_management_token_only_passes :
    hasManagementCapabilities
        { type := .Clustered, management_token := some "mt" } = true ∧
      ({ type := .Clustered, management_token := some "mt" } :
          InfluxConfig).cluster_id = none ∧
      ({ type := .Clustered, management_token := some "mt" } :
          InfluxConfig).account_id = none ∧
      validateManagementCapabilities
        { type := .Clustered, management_token := some "mt" } = .ok () :=
  ⟨rfl, rfl, rfl, rfl⟩

/-- C2 counterexample: for a CloudDedicated configuration whose required
`cluster_id` is absent but whose `url` is set, the resolved data host is
that url — neither empty nor undefined, contrary to the claim that absence
of a required field yields an empty/undefined host. -/
theorem getDataHost_cloudDedicated_url_fallback_counterexample :
    getDataHost { type := .CloudDedicated, url := some "http://example.com" } =
        some "http://example.com" ∧
      truthy ({ type := .CloudDedicated, url := some "http://example.com" } :
          InfluxConfig).cluster_id = false ∧
      some "http://example.com" ≠ (none : Option String) ∧
      "http://example.com" ≠ "" := by
  refine ⟨rfl, rfl, by decide, by decide⟩

/-- C2 (amended): for every CloudDedicated configuration, endpoint
resolution is a pure total function: with a truthy `cluster_id` the data
host is https://{clusterId}.a.influxdb.io, the management host is always
the fixed console origin, and when `cluster_id` is absent the data host
falls back to `config.url` (hence undefined exactly when `url` is also
absent), never an error. -/
theorem cloudDedicated_endpoint_resolution (c : InfluxConfig)
    (ht : c.type = .CloudDedicated) :
    (∀ cid, c.cluster_id = some cid → cid ≠ "" →
        getDataHost c = some ("https://" ++ cid ++ ".a.influxdb.io")) ∧
      getManagementHost c = some "https://console.influxdata.com" ∧
      (truthy c.cluster_id = false → getDataHost c = c.url) := by
  refine ⟨?_, ?_, ?_⟩
  · intro cid hcid hne
    simp [getDataHost, ht, hcid, truthy, String.isEmpty_iff, hne]
  · simp [getManagementHost, ht]
  · intro hf
    simp [getDataHost, ht, hf]

/-- C2 witness: resolving endpoints for CloudDedicated with cluster_id
"abc123" yields data host https://abc123.a.influxdb.io and the fixed
management console origin. -/
theorem cloudDedicated_endpoint_resolution_witness :
    getDataHost { type := .CloudDedicated, cluster_id := some "abc123" } =
        some "https://abc123.a.influxdb.io" ∧
      getManagementHost
          { type := .CloudDedicated, cluster_id := some "abc123" } =
        some "https://console.influxdata.com" := by
  have h := cloudDedicated_endpoint_resolution
    { type := .CloudDedicated, cluster_id := some "abc123" } rfl
  exact ⟨by rw [h.1 "abc123" rfl (by decide)]; decide, h.2.1⟩

/-- C3: for every product type and combination of present/absent fields
(presence being JavaScript truthiness of the environment-provided string),
`hasDataCapabilities` is false iff a product-specific required field is
absent: `cluster_id` and `token` for CloudDedicated, `url` and `token` for
every other type. -/
theorem hasDataCapabilities_false_iff_field_missing (c : InfluxConfig) :
    hasDataCapabilities c = false ↔
      (if c.type = .CloudDedicated then
        truthy c.cluster_id = false ∨ truthy c.token = false
      else
        truthy c.url = false ∨ truthy c.token = false) := by
  by_cases h : c.type = .CloudDedicated
  · cases h1 : truthy c.cluster_id <;> cases h2 : truthy c.token <;>
      simp [hasDataCapabilities, isValidConfig, h, h1, h2]
  · cases h1 : truthy c.url <;> cases h2 : truthy c.token <;>
      simp [hasDataCapabilities, isValidConfig, h, h1, h2]

/-- C4 counterexample: a user bucket whose first retention rule has
`everySeconds = 0` is mapped to a canonical database whose retention is
undefined, not `0 * 1000000000` as the claim's unconditional
multiplication states — the code tests `everySeconds` for truthiness. -/
theorem listServerless_zero_everySeconds_counterexample :
    (listDatabasesCloudServerless
          [{ name := "a", type := some "user",
             retentionRules := [{ type := "expire", everySeconds := 0 }] }]).map
        (fun d => d.retentionPeriod) = [none] ∧
      (some ((0 : Int) * 1000000000) : Option Int) ≠ none :=
  ⟨rfl, by decide⟩

/-- C4 (amended): listing CloudServerless databases drops every bucket
whose type is "system" and maps each remaining bucket to a canonical
database of the same name whose retention is `everySeconds * 1000000000`
nanoseconds when the first retention rule's `everySeconds` is nonzero, and
undefined when there is no retention rule or its `everySeconds` is 0; in
particular the buckets [a:user, _monitoring:system] yield exactly one
database named "a". -/
theorem listServerless_filters_system_and_converts (buckets : List Bucket)
    (hn : ∀ b ∈ buckets, b.name ≠ "") :
    (listDatabasesCloudServerless buckets).map (fun d => d.name) =
        ((buckets.filter fun b => b.type ≠ some "system").map
          fun b => b.name) ∧
      (listDatabasesCloudServerless buckets).map (fun d => d.retentionPeriod) =
        ((buckets.filter fun b => b.type ≠ some "system").map fun b =>
          match b.retentionRules.head? with
          | some r =>
            if r.everySeconds ≠ 0 then some (r.everySeconds * 1000000000)
            else none
          | none => none) ∧
      listDatabasesCloudServerless
          [{ name := "a", type := some "user" },
           { name := "_monitoring", type := some "system" }] =
        [{ name := "a" }] := by
  refine ⟨?_, ?_, rfl⟩
  · unfold listDatabasesCloudServerless
    rw [List.map_map]
    refine List.map_congr_left ?_
    intro b hb
    have hbn := hn b (List.mem_of_mem_filter hb)
    simp [mapServerlessBucket, hbn]
  · unfold listDatabasesCloudServerless
    rw [List.map_map]
    refine List.map_congr_left ?_
    intro b hb
    have hbn := hn b (List.mem_of_mem_filter hb)
    simp [mapServerlessBucket, hbn]

/-- C4 witness: the claim's concrete instance, one user bucket and one
system bucket yielding exactly the database named "a". -/
theorem listServerless_filters_system_witness :
    listDatabasesCloudServerless
        [{ name := "a", type := some "user" },
         { name := "_monitoring", type := some "system" }] =
      [{ name := "a" }] :=
  (listServerless_filters_system_and_converts
    [{ name := "a", type := some "user" },
     { name := "_monitoring", type := some "system" }] (by decide)).2.2

/-- C5: the CloudDedicated create payload carries the caller-provided
maxTables / maxColumnsPerTable / retentionPeriod whenever they are defined,
and the defaults 500 / 200 / 0 exactly when the caller omitted them; a
wholly omitted config yields all three defaults. -/
theorem createDedicated_defaults_only_when_omitted (name : String)
    (config : Option CloudDedicatedDatabaseConfig) :
    (createDatabaseCloudDedicatedPayload name config).name = name ∧
      (∀ v, config.bind (fun c => c.maxTables) = some v →
        (createDatabaseCloudDedicatedPayload name config).maxTables = v) ∧
      (config.bind (fun c => c.maxTables) = none →
        (createDatabaseCloudDedicatedPayload name config).maxTables = 500) ∧
      (∀ v, config.bind (fun c => c.maxColumnsPerTable) = some v →
        (createDatabaseCloudDedicatedPayload name config).maxColumnsPerTable
          = v) ∧
      (config.bind (fun c => c.maxColumnsPerTable) = none →
        (createDatabaseCloudDedicatedPayload name config).maxColumnsPerTable
          = 200) ∧
      (∀ v, config.bind (fun c => c.retentionPeriod) = some v →
        (createDatabaseCloudDedicatedPayload name config).retentionPeriod
          = v) ∧
      (config.bind (fun c => c.retentionPeriod) = none →
        (createDatabaseCloudDedicatedPayload name config).retentionPeriod
          = 0) ∧
      createDatabaseCloudDedicatedPayload name none =
        { name := name, maxTables := 500, maxColumnsPerTable := 200,
          retentionPeriod := 0 } := by
  refine ⟨rfl, ?_, ?_, ?_, ?_, ?_, ?_, rfl⟩ <;>
    first
      | (intro v h; simp [createDatabaseCloudDedicatedPayload, h])
      | (intro h; simp [createDatabaseCloudDedicatedPayload, h])

/-- C5 witness: a caller-provided maxTables of 7 is kept, and an omitted
config yields the payload with all three defaults. -/
theorem createDedicated_defaults_witness :
    (createDatabaseCloudDedicatedPayload "mydb"
          (some { maxTables := some 7 })).maxTables = 7 ∧
      createDatabaseCloudDedicatedPayload "mydb" none =
        { name := "mydb", maxTables := 500, maxColumnsPerTable := 200,
          retentionPeriod := 0 } :=
  ⟨(createDedicated_defaults_only_when_omitted "mydb"
      (some { maxTables := some 7 })).2.1 7 rfl,
   (createDedicated_defaults_only_when_omitted "mydb"
      none).2.2.2.2.2.2.2⟩

/-- C6: the CloudServerless retention conversions compose to the identity
on second-aligned values: a canonical retention of 86400000000000 ns is
sent as 86400 seconds in the create payload, and a bucket response whose
first retention rule has everySeconds = 86400 normalizes back to
86400000000000 ns. -/
theorem serverless_retention_round_trip :
    (createDatabaseCloudServerlessPayload "db" "org"
          (some { retentionPeriod := some 86400000000000 })).retentionRules =
        [{ type := "expire", everySeconds := 86400 }] ∧
      (listDatabasesCloudServerless
          [{ name := "db",
             retentionRules :=
               [{ type := "expire", everySeconds := 86400 }] }]).map
        (fun d => d.retentionPeriod) = [some 86400000000000] :=
  ⟨rfl, rfl⟩

/-- C7: `validateOperationSupport` raises iff the current product type is
not in the supported list; the raised message names the current type and
lists every supported type; and under a Core configuration the
update_database check raises naming Core and the three supported types. -/
theorem validateOperationSupport_allow_list (operation : String)
    (supportedTypes : List InfluxProductType)
    (currentType : InfluxProductType) :
    ((validateOperationSupport operation supportedTypes currentType = .ok ())
        ↔ currentType ∈ supportedTypes) ∧
      (currentType ∉ supportedTypes →
        validateOperationSupport operation supportedTypes currentType =
          .error ("Operation '" ++ operation ++ "' is not supported for " ++
            productTypeName currentType ++ ". Supported types: " ++
            String.intercalate ", " (supportedTypes.map productTypeName))) ∧
      validateOperationSupport "update_database"
          [.CloudDedicated, .CloudServerless, .Clustered] .Core =
        .error "Operation 'update_database' is not supported for Core. Supported types: Cloud Dedicated, Cloud Serverless, Clustered" := by
  refine ⟨?_, ?_, rfl⟩
  · by_cases hc : currentType ∈ supportedTypes <;>
      simp [validateOperationSupport, hc]
  · intro hc
    simp [validateOperationSupport, hc]

/-- C7 witness: the update_database allow-list check under Core raises the
message naming Core and the three supported types. -/
theorem validateOperationSupport_allow_list_witness :
    validateOperationSupport "update_database"
        [.CloudDedicated, .CloudServerless, .Clustered] .Core =
      .error "Operation 'update_database' is not supported for Core. Supported types: Cloud Dedicated, Cloud Serverless, Clustered" :=
  (validateOperationSupport_allow_list "update_database"
    [.CloudDedicated, .CloudServerless, .Clustered] .Core).2.2

/-- C8: a delete whose underlying request throws an error containing
"aborted" returns an empty successful result; every other thrown error is
propagated unchanged, and a successful response's body is returned. -/
theorem httpDelete_swallows_aborted
    (outcome : HttpClientService.RequestOutcome) :
    (∀ d, outcome = .success d →
        HttpClientService.delete outcome = .ok (some d)) ∧
      (∀ msg, outcome = .failure msg → strContains msg "aborted" = true →
        HttpClientService.delete outcome = .ok none) ∧
      (∀ msg, outcome = .failure msg → strContains msg "aborted" = false →
        HttpClientService.delete outcome = .error msg) := by
  refine ⟨?_, ?_, ?_⟩
  · intro d h
    subst h
    rfl
  · intro msg h hc
    subst h
    simp [HttpClientService.delete, hc]
  · intro msg h hc
    subst h
    simp [HttpClientService.delete, hc]

/-- C8 witness: an "aborted" transport error becomes an empty success,
while an unrelated error is propagated with its message. -/
theorem httpDelete_swallows_aborted_witness :
    HttpClientService.delete (.failure "The user aborted a request.") =
        .ok none ∧
      HttpClientService.delete (.failure "socket hang up") =
        .error "socket hang up" :=
  ⟨(httpDelete_swallows_aborted (.failure "The user aborted a request.")).2.1
      "The user aborted a request." rfl (by decide),
   (httpDelete_swallows_aborted (.failure "socket hang up")).2.2
      "socket hang up" rfl (by decide)⟩

/-- C9: creating a CloudServerless database with a retention of exactly 0
nanoseconds produces the 30-day default everySeconds = 2592000, the same
payload as an omitted retention, because the code tests the value for
truthiness rather than definedness. -/
theorem createServerless_zero_retention_gets_default :
    (createDatabaseCloudServerlessPayload "db" "org"
          (some { retentionPeriod := some 0 })).retentionRules =
        [{ type := "expire", everySeconds := 2592000 }] ∧
      createDatabaseCloudServerlessPayload "db" "org"
          (some { retentionPeriod := some 0 }) =
        createDatabaseCloudServerlessPayload "db" "org"
          (some { retentionPeriod := none }) :=
  ⟨rfl, rfl⟩

/-- C10: for all four database operations the Clustered product type is
dispatched to the same strategy as CloudDedicated, the shared
account/cluster endpoint is computed identically from the same credential
fields, and the management-token transport selection coincides. -/
theorem clustered_dispatches_as_cloudDedicated :
    listDatabasesRoute .Clustered = listDatabasesRoute .CloudDedicated ∧
      createDatabaseRoute .Clustered = createDatabaseRoute .CloudDedicated ∧
      updateDatabaseRoute .Clustered = updateDatabaseRoute .CloudDedicated ∧
      deleteDatabaseRoute .Clustered = deleteDatabaseRoute .CloudDedicated ∧
      (∀ (c : InfluxConfig) (forManagement : Bool),
        getInfluxHttpClientToken forManagement { c with type := .Clustered } =
          getInfluxHttpClientToken forManagement
            { c with type := .CloudDedicated }) ∧
      (∀ c : InfluxConfig,
        cloudDedicatedDatabasesEndpoint { c with type := .Clustered } =
          cloudDedicatedDatabasesEndpoint { c with type := .CloudDedicated }) := by
  refine ⟨rfl, rfl, rfl, rfl, ?_, ?_⟩
  · intro c fm
    cases fm <;> simp [getInfluxHttpClientToken]
  · intro c
    rfl

end InfluxMcp
